import Mathlib

/-!
Shallow embedding of `liveusb/creator.py` (the `LiveUSBCreator` base class and
the `LinuxLiveUSBCreator` backend), with theorems checking the specification's
claims about free-space checking, subprocess supervision, mounting, drive
enumeration, checksum verification, filesystem verification and drive
selection.

External collaborators (hashlib, the filesystem, D-Bus/UDisks2) are modelled
as explicit parameters: a hash algorithm is a state, a per-byte update
function and a hex-digest projection; the filesystem is a function from paths
to byte lists; the D-Bus environment is a record of the outcomes the OS
service can return.  All integer arithmetic in the source is Python 2
arithmetic on non-negative ints, embedded as `Nat` (Python `/` on ints is
floor division).
-/

namespace LiveUSB

/-- `valid_fstypes = set(['vfat', 'msdos']) | set(['ext2', 'ext3', 'ext4'])`
(creator.py lines 74-75).  Embedded as a list; only membership is used. -/
def valid_fstypes : List String := ["vfat", "msdos", "ext2", "ext3", "ext4"]

/-- The error message data carried by the `LiveUSBError` raised from
`check_free_space` (creator.py lines 261-263): the message interpolates
`isosize/1024**2 + overlay` and `freebytes/1024**2`, both labelled "MB". -/
structure SpaceErr where
  requiredMB : Nat
  freeMB : Nat
deriving DecidableEq, Repr

/-- `LiveUSBCreator.check_free_space` (creator.py lines 252-263).
Inputs: `isosize` (bytes), `overlay` (MiB), and `freebytes` as returned by
`get_free_bytes()`.  Output: the new value of `self.totalsize`, paired with
`some err` when the function raises `LiveUSBError` and `none` when it returns
normally.  `totalsize` is assigned before the comparison, so it is set in both
cases. -/
def check_free_space (isosize overlay freebytes : Nat) : Nat × Option SpaceErr :=
  let overlaysize := overlay * 1024 ^ 2
  let totalsize := overlaysize + isosize
  if totalsize > freebytes then
    (totalsize, some ⟨isosize / 1024 ^ 2 + overlay, freebytes / 1024 ^ 2⟩)
  else
    (totalsize, none)

/-- `LiveUSBCreator.write_log` (creator.py lines 364-371): appends the whole
accumulated output log to `liveusb-creator.log` under `$TEMP` (default
`/tmp`) and returns the file name.  The log is modelled as the list of strings
written to `self.output`. -/
def write_log (tmpdir : Option String) (output : List String) : String × List String :=
  ((tmpdir.getD "/tmp") ++ "/liveusb-creator.log", output)

/-- Observable outcome of one `popen` call: the output log after the call, the
persisted log file (name and contents) when `write_log` ran, and whether a
`LiveUSBError` was raised. -/
structure PopenOutcome where
  output : List String
  persisted : Option (String × List String)
  raised : Bool
deriving DecidableEq, Repr

/-- `LiveUSBCreator.popen` (creator.py lines 179-211).  The command line is
written to `self.output`, the process runs, its captured stdout/stderr are
written to `self.output`, and only then is `proc.returncode` inspected: on a
truthy (nonzero) return code `write_log` persists the log, and a
`LiveUSBError` is raised unless `passive` is set.  `returncode : Int` since a
signal death gives a negative return code. -/
def popen (tmpdir : Option String) (output0 : List String)
    (cmd out err : String) (returncode : Int) (passive : Bool) : PopenOutcome :=
  let log1 := output0 ++ [cmd]
  let log2 := log1 ++ [out ++ "\n" ++ err ++ "\n"]
  if returncode ≠ 0 then
    { output := log2
      persisted := some (write_log tmpdir log2)
      raised := !passive }
  else
    { output := log2, persisted := none, raised := false }

/-- The 1 MiB read/update loop shared by `verify_iso_sha1` (creator.py lines
232-240) and `calculate_device_checksum` (lines 1097-1104):
```
bytes = 1024**2
while bytes:
    data = f.read(bytes)
    checksum.update(data)
    bytes = len(data)
```
The file is a byte list; `read(n)` returns the next `min n remaining` bytes;
`checksum.update` absorbs a chunk byte by byte (`step` is the per-byte
absorption of the hash state, so absorbing a chunk is a fold).  `req` is the
current value of the Python variable `bytes` (the read size requested next);
it starts at `1024^2` and becomes the length of the last chunk read. -/
def stream_hash_loop {σ : Type} (step : σ → Nat → σ) (s : σ) (req : Nat)
    (data : List Nat) : σ :=
  if h : req = 0 then s
  else
    stream_hash_loop step ((data.take req).foldl step s) (data.take req).length
      (data.drop req)
termination_by data.length + (if req = 0 then 0 else 1)
decreasing_by
  simp only [List.length_take, List.length_drop, h, if_false]
  rcases data with _ | ⟨a, l⟩
  · simp
  · split <;> simp_all <;> omega

/-- A model of one `hashlib` algorithm as the Checksum Engine consumes it: an
internal state, the byte-absorption step (`update` on a chunk is the fold of
this step), and the `hexdigest()` projection of a state to a hex string. -/
structure HashAlgModel where
  State : Type
  init : State
  upd : State → Nat → State
  hexOf : State → String

/-- `checksum.hexdigest()` as computed by the 1 MiB read loop over a file's
bytes with a given algorithm. -/
def hexdigestVia (alg : HashAlgModel) (data : List Nat) : String :=
  alg.hexOf (stream_hash_loop alg.upd alg.init (1024 ^ 2) data)

/-- A release catalog entry as `verify_iso_sha1` uses it: the result of
`get_release_from_iso()`, carrying an expected digest under the key `sha1` or
`sha256` when present (`'sha1' in release` / `'sha256' in release`). -/
structure Release where
  sha1 : Option String
  sha256 : Option String

/-- Observable result of `verify_iso_sha1`: `matched` (returns True),
`mismatched` (returns False), `skipped` (no release: returns None), or
`unboundLocal` (release has neither digest key: `checksum` is never bound and
`checksum.update` raises UnboundLocalError). -/
inductive VerifyOutcome
  | matched
  | mismatched
  | skipped
  | unboundLocal
deriving DecidableEq, Repr

/-- `LiveUSBCreator.verify_iso_sha1` (creator.py lines 213-250).  `sha1alg`
and `sha256alg` model `hashlib.sha1` and `hashlib.sha256`; `release` is the
result of `get_release_from_iso()`; `isobytes` is the content of `self.iso`.
The final comparison is `checksum.hexdigest() == release[hash]`, i.e. exact
string equality. -/
def verify_iso_sha1 (sha1alg sha256alg : HashAlgModel) (release : Option Release)
    (isobytes : List Nat) : VerifyOutcome :=
  match release with
  | none => VerifyOutcome.skipped
  | some rel =>
    match rel.sha1 with
    | some expected =>
      if hexdigestVia sha1alg isobytes = expected then VerifyOutcome.matched
      else VerifyOutcome.mismatched
    | none =>
      match rel.sha256 with
      | some expected =>
        if hexdigestVia sha256alg isobytes = expected then VerifyOutcome.matched
        else VerifyOutcome.mismatched
      | none => VerifyOutcome.unboundLocal

/-- Python `unicode(x)` applied to a value that is either `None` or a string:
`unicode(None)` is the four-character string "None". -/
def pyUnicodeOfOption : Option String → String
  | none => "None"
  | some s => s

/-- The path `calculate_device_checksum` opens (creator.py line 1095):
`device_name = unicode(self.drive['parent'])` — computed from the parent
alone, with no fallback to `self.drive['device']`. -/
def device_checksum_path (parent : Option String) : String :=
  pyUnicodeOfOption parent

/-- `LinuxLiveUSBCreator.calculate_device_checksum` (creator.py lines
1084-1107): opens `unicode(drive['parent'])`, streams its contents in 1 MiB
chunks into `hashlib.sha1()` (the algorithm is hard-coded; `self.opts.hash` is
not consulted here), logs `sha1(device_name) = hexdigest` and returns the hex
digest.  Result: the logged device name paired with the returned digest.
`fsRead` maps a path to the bytes read from it. -/
def calculate_device_checksum (sha1alg : HashAlgModel) (fsRead : String → List Nat)
    (parent : Option String) : String × String :=
  let device_name := device_checksum_path parent
  (device_name, hexdigestVia sha1alg (fsRead device_name))

/-- Instantiation of the `hashlib.sha1` model used on concrete inputs: the
state is the byte stream absorbed so far, and on the empty stream the hex
digest is SHA-1's digest of the empty input. -/
def sha1EmptyModel : HashAlgModel where
  State := List Nat
  init := []
  upd := fun s b => s ++ [b]
  hexOf := fun s =>
    if s = [] then "da39a3ee5e6b4b0d3255bfef95601890afd80709" else "unmodelled"

/-- A hash model whose digest is the printed absorbed stream, enough to tell
two different streams apart on concrete inputs. -/
def listDigestModel : HashAlgModel where
  State := List Nat
  init := []
  upd := fun s b => s ++ [b]
  hexOf := fun s => toString s

/-- A filesystem for concrete checksum inputs: the path "/dev/sdb" (a drive's
own device path) holds the byte 1, every other path (including "None") holds
the byte 0. -/
def fsReadCex : String → List Nat := fun p => if p = "/dev/sdb" then [1] else [0]

/-- Outcome of the UDisks2 `Mount()` D-Bus call inside
`LinuxLiveUSBCreator.mount_device` (creator.py lines 762-770): a mount point
string, a `dbus.exceptions.DBusException` (caught and only logged), or any
other exception (re-raised as `LiveUSBError`). -/
inductive MountCall
  | ok (mnt : String)
  | dbusErr
  | otherErr
deriving DecidableEq, Repr

/-- The D-Bus/UDisks2 environment `mount_device` runs against.  `devBd`: both
`_get_device_fs` and the block-device object lookups succeeded (a
`DBusException` there is caught and logged, leaving them unset).
`existingMounts`: the `Filesystem.MountPoints` property (the empty list also
covers the `DBusException` swallowed by the bare `except ... pass`).
`pathExists` is `os.path.exists`. -/
structure DBusEnv where
  devBd : Bool
  existingMounts : List String
  mountCall : MountCall
  pathExists : String → Bool

/-- Errors `mount_device` raises (all as `LiveUSBError` in the source). -/
inductive MountDeviceErr
  | unknownFilesystem
  | unsupportedFilesystem (fs : String)
  | unableToMount
deriving DecidableEq, Repr

/-- Post-state of `mount_device`: `self.dest`, `self.drive['mount']`, and
whether the branch logging `'No mount points found after mounting attempt'`
(the failed `os.path.exists` verification, creator.py lines 772-774) ran. -/
structure MountOutcome where
  dest : Option String
  driveMount : Option String
  verifyFailLogged : Bool
deriving DecidableEq, Repr

/-- The mount-point acquisition phase of `mount_device` (creator.py lines
742-770), entered only when the drive has no recorded mount: reuse the first
already-present UDisks2 mount point if there is one, otherwise call `Mount()`;
a `DBusException` from `Mount()` is logged and leaves the mount point unset;
any other exception becomes a raised `LiveUSBError`. -/
def acquire_mount (env : DBusEnv) : Except MountDeviceErr (Option String) :=
  let mnt0 : Option String := if env.devBd then env.existingMounts.head? else none
  if env.devBd = true ∧ mnt0 = none then
    match env.mountCall with
    | MountCall.ok m => Except.ok (some m)
    | MountCall.dbusErr => Except.ok none
    | MountCall.otherErr => Except.error MountDeviceErr.unableToMount
  else
    Except.ok mnt0

/-- `LinuxLiveUSBCreator.mount_device` (creator.py lines 730-781).  Raises for
a missing or unsupported filesystem type; reuses `self.drive['mount']` as
`self.dest` when set; otherwise acquires a mount point and, when one was
obtained but `os.path.exists` fails on it, logs errors and leaves `self.dest`
unset (lines 772-774) — only a verified path is recorded into `self.dest` and
`self.drive['mount']` (line 776). -/
def mount_device (fstype : Option String) (driveMount : Option String)
    (env : DBusEnv) : Except MountDeviceErr MountOutcome :=
  match fstype with
  | none => Except.error MountDeviceErr.unknownFilesystem
  | some fs =>
    if fs ∈ valid_fstypes then
      match driveMount with
      | some m => Except.ok ⟨some m, some m, false⟩
      | none =>
        match acquire_mount env with
        | Except.error e => Except.error e
        | Except.ok (some m) =>
          if env.pathExists m then Except.ok ⟨some m, some m, false⟩
          else Except.ok ⟨none, none, true⟩
        | Except.ok none => Except.ok ⟨none, none, false⟩
    else
      Except.error (MountDeviceErr.unsupportedFilesystem fs)

/-- A concrete environment where `Mount()` returns the path "/media/usb" but
`os.path.exists` reports that no path exists. -/
def ghostMountEnv : DBusEnv where
  devBd := true
  existingMounts := []
  mountCall := MountCall.ok "/media/usb"
  pathExists := fun _ => false

/-- One UDisks2 InterfacesAdded notification as
`LinuxLiveUSBCreator.detect_removable_drives.handleAdded` (creator.py lines
604-682) reads it: interface presence on the object, the properties fetched
from the associated Drive object (`Removable`, `Optical`, `ConnectionBus`,
whether `blk['Drive']` is '/'), the Block/Filesystem properties, and the
partition table's block device path (`data['parent']`). -/
structure UDisksDevice where
  hasBlock : Bool
  hasFilesystem : Bool
  hasPartition : Bool
  driveIsRoot : Bool
  removable : Bool
  optical : Bool
  connectionBus : String
  label : String
  fstype : String
  uuid : String
  device : String
  mounts : List String
  size : Nat
  parent : String
deriving DecidableEq, Repr

/-- One entry of `self.drives`: the `data` dict `handleAdded` inserts, with
`mount` already normalised to the first mount point or `None` (creator.py
lines 660-667); `parent` is optional because the inherited `_add_device` and
the Windows backend can record `None` there. -/
structure DriveData where
  label : String
  fstype : String
  uuid : String
  device : String
  mount : Option String
  size : Nat
  parent : Option String
deriving DecidableEq, Repr

/-- `handleAdded` (creator.py lines 604-682): the filter pipeline deciding
whether a hot-plugged device enters `self.drives`, and the record it inserts.
`force` is `self.opts.force` (`none` when unset/falsy).  Returns the inserted
`DriveData`, or `none` when the device is skipped.  The removable/optical/
connection-bus check (lines 624-629) consults no override; the `/boot` check
(line 644) precedes both force-sensitive checks; the size check (line 649)
passes whenever `force` is set at all; the filesystem check (line 654) passes
when `force` names this exact device path. -/
def handleAdded (force : Option String) (d : UDisksDevice) : Option DriveData :=
  if ¬(d.hasBlock = true ∧ d.hasFilesystem = true ∧ d.hasPartition = true) then
    none
  else if d.driveIsRoot = true then
    none
  else if d.removable = false ∨ d.optical = true ∨
      (d.connectionBus ≠ "usb" ∧ d.connectionBus ≠ "sdio") then
    none
  else if "/boot" ∈ d.mounts then
    none
  else if d.size = 0 ∧ force = none then
    none
  else if d.fstype ∉ valid_fstypes ∧ force ≠ some d.device then
    none
  else
    some { label := d.label, fstype := d.fstype, uuid := d.uuid,
           device := d.device, mount := d.mounts.head?, size := d.size,
           parent := some d.parent }

/-- An optical but otherwise acceptable USB device (vfat, sized, unmounted),
whose device path is "/dev/sr0". -/
def opticalForcedDev : UDisksDevice where
  hasBlock := true
  hasFilesystem := true
  hasPartition := true
  driveIsRoot := false
  removable := true
  optical := true
  connectionBus := "usb"
  label := "DISC"
  fstype := "vfat"
  uuid := "1234-5678"
  device := "/dev/sr0"
  mounts := []
  size := 1000000
  parent := "/dev/sr"

/-- A removable, non-optical, USB-connected vfat device mounted at /boot. -/
def bootMountedDev : UDisksDevice where
  hasBlock := true
  hasFilesystem := true
  hasPartition := true
  driveIsRoot := false
  removable := true
  optical := false
  connectionBus := "usb"
  label := "BOOT"
  fstype := "vfat"
  uuid := "9999-0000"
  device := "/dev/sdc1"
  mounts := ["/boot"]
  size := 500000000
  parent := "/dev/sdc"

/-- A removable, non-optical, USB-connected, sized, unmounted vfat device that
passes every enumeration filter. -/
def cleanUsbDev : UDisksDevice where
  hasBlock := true
  hasFilesystem := true
  hasPartition := true
  driveIsRoot := false
  removable := true
  optical := false
  connectionBus := "usb"
  label := "STICK"
  fstype := "vfat"
  uuid := "abcd-ef01"
  device := "/dev/sdd1"
  mounts := []
  size := 16000000000
  parent := "/dev/sdd"

/-- Which label-rewrite command `verify_filesystem` ran (creator.py lines
805-814): `/sbin/dosfslabel` for vfat/msdos, `/sbin/e2label` otherwise. -/
inductive LabelCmd
  | dosfslabel
  | e2label
deriving DecidableEq, Repr

/-- Observable outcome of a normal `verify_filesystem` return: the rewrite
command run (if any), and whether that command failed — a failure is caught
locally (the inner `except LiveUSBError: pass` for dosfslabel, the outer
`except` with `log.error` for e2label; `popen` already persisted the log). -/
structure VerifyFsOutcome where
  labelCmd : Option LabelCmd
  rewriteFailRecovered : Bool
deriving DecidableEq, Repr

/-- Errors `verify_filesystem` raises (creator.py lines 794-800). -/
inductive VerifyFsErr
  | unknownFilesystem
  | unsupportedFilesystem (fs : String)
deriving DecidableEq, Repr

/-- `LinuxLiveUSBCreator.verify_filesystem` (creator.py lines 792-816).
`fstype` is `self.fstype` (`none` for Python `None`), `driveLabel` is
`self.drive['label']`, `label` is `self.label`; `labelCmdFails` says whether
the rewrite command, if run, exits nonzero (raising `LiveUSBError` out of
`popen`, which both rewrite paths catch). -/
def verify_filesystem (fstype : Option String) (driveLabel label : String)
    (labelCmdFails : Bool) : Except VerifyFsErr VerifyFsOutcome :=
  match fstype with
  | none => Except.error VerifyFsErr.unknownFilesystem
  | some fs =>
    if fs ∈ valid_fstypes then
      if driveLabel ≠ label then
        if fs = "vfat" ∨ fs = "msdos" then
          Except.ok ⟨some LabelCmd.dosfslabel, labelCmdFails⟩
        else
          Except.ok ⟨some LabelCmd.e2label, labelCmdFails⟩
      else
        Except.ok ⟨none, false⟩
    else
      Except.error (VerifyFsErr.unsupportedFilesystem fs)

/-- The fields of `LiveUSBCreator` that drive selection touches:
`self.drives` (embedded as an association list keyed exactly like the Python
dict), `self._drive`, `self.uuid` and `self.fstype` (both `None` until a
drive is selected). -/
structure CreatorState where
  drives : List (String × DriveData)
  sel : Option String
  uuid : Option String
  fstype : Option String
deriving DecidableEq, Repr

/-- Python dict lookup `self.drives[key]` (and `has_key`) over the
association-list embedding. -/
def dictGet (drives : List (String × DriveData)) (key : String) : Option DriveData :=
  (drives.find? (fun kv => kv.1 == key)).map (fun kv => kv.2)

/-- Errors out of drive selection: the `LiveUSBError("Cannot find device …")`
from `_set_drive`, or a Python `KeyError` from an indexing miss. -/
inductive SetDriveErr
  | cannotFindDevice (d : String)
  | keyError
deriving DecidableEq, Repr

/-- `LiveUSBCreator._set_drive` (creator.py lines 398-414).  `none` clears
`self._drive` and returns; a key not present in `self.drives` is resolved by
scanning entries for one whose `device` equals the argument, raising when none
matches; on success `self._drive`, `self.uuid` and `self.fstype` are set from
the resolved entry. -/
def set_drive (s : CreatorState) (drive : Option String) :
    Except SetDriveErr CreatorState :=
  match drive with
  | none => Except.ok { s with sel := none }
  | some d =>
    let key : Option String :=
      if (dictGet s.drives d).isSome then some d
      else
        match s.drives.find? (fun kv => kv.2.device == d) with
        | some kv => some kv.1
        | none => none
    match key with
    | none => Except.error (SetDriveErr.cannotFindDevice d)
    | some k =>
      match dictGet s.drives k with
      | some r =>
        Except.ok { s with sel := some k, uuid := some r.uuid,
                           fstype := some r.fstype }
      | none => Except.error SetDriveErr.keyError

/-- The `drive` property (creator.py lines 77-78):
`self.drives[self._drive] if self._drive and len(self.drives) else None`.
When a key is selected and the inventory is nonempty but the key is missing,
the dict indexing raises `KeyError`. -/
def drive_get (s : CreatorState) : Except SetDriveErr (Option DriveData) :=
  match s.sel with
  | none => Except.ok none
  | some k =>
    if s.drives.length = 0 then Except.ok none
    else
      match dictGet s.drives k with
      | some r => Except.ok (some r)
      | none => Except.error SetDriveErr.keyError

/-- A concrete inventory entry for witnesses: the first vfat partition of a
USB stick. -/
def driveEx : DriveData where
  label := "OLD"
  fstype := "vfat"
  uuid := "1234-5678"
  device := "/dev/sdb1"
  mount := none
  size := 16000000000
  parent := some "/dev/sdb"

/-- A concrete creator state holding only `driveEx` under its UDisks2 object
path, with nothing selected yet. -/
def stateEx : CreatorState where
  drives := [("/org/freedesktop/UDisks2/block_devices/sdb1", driveEx)]
  sel := none
  uuid := none
  fstype := none

/-- The state `_set_drive` produces from `stateEx` when handed the device
path "/dev/sdb1": the entry is resolved to its inventory key and selected. -/
def stateSelEx : CreatorState where
  drives := [("/org/freedesktop/UDisks2/block_devices/sdb1", driveEx)]
  sel := some "/org/freedesktop/UDisks2/block_devices/sdb1"
  uuid := some "1234-5678"
  fstype := some "vfat"

/-- The read loop absorbs exactly the whole file, in order: its final state is
the one-pass left fold of the absorption step over all bytes. -/
theorem stream_hash_loop_eq_foldl {σ : Type} (step : σ → Nat → σ) (data : List Nat)
    (s : σ) (req : Nat) (hreq : req ≠ 0) :
    stream_hash_loop step s req data = List.foldl step s data := by
  suffices h : ∀ (n : Nat) (data : List Nat), data.length ≤ n → ∀ (s : σ) (req : Nat),
      req ≠ 0 → stream_hash_loop step s req data = List.foldl step s data from
    h data.length data le_rfl s req hreq
  intro n
  induction n with
  | zero =>
    intro data hlen s req hreq
    have hd : data = [] := by cases data <;> simp_all
    subst hd
    rw [stream_hash_loop, dif_neg hreq, stream_hash_loop]
    simp
  | succ n ih =>
    intro data hlen s req hreq
    cases data with
    | nil =>
      rw [stream_hash_loop, dif_neg hreq, stream_hash_loop]
      simp
    | cons a l =>
      rw [stream_hash_loop, dif_neg hreq]
      have h1 : ((a :: l).take req).length ≠ 0 := by
        simp only [List.length_take, List.length_cons]
        omega
      have h2 : ((a :: l).drop req).length ≤ n := by
        simp only [List.length_drop, List.length_cons]
        simp only [List.length_cons] at hlen
        omega
      rw [ih _ h2 _ _ h1, ← List.foldl_append, List.take_append_drop]

/-- C1: `check_free_space` raises iff `isosize + overlay*1024^2 > freebytes`;
exact equality passes; and `totalsize` is left equal to
`overlay*1024^2 + isosize` in every case. -/
theorem check_free_space_iff (isosize overlay freebytes : Nat) :
    ((check_free_space isosize overlay freebytes).2 ≠ none ↔
      isosize + overlay * 1024 ^ 2 > freebytes) ∧
    (isosize + overlay * 1024 ^ 2 = freebytes →
      (check_free_space isosize overlay freebytes).2 = none) ∧
    (check_free_space isosize overlay freebytes).1 = overlay * 1024 ^ 2 + isosize := by
  unfold check_free_space
  dsimp only
  refine ⟨?_, ?_, ?_⟩
  · split
    next h => simp only [ne_eq, reduceCtorEq, not_false_eq_true, true_iff]; omega
    next h => simp only [ne_eq, not_true_eq_false, false_iff]; omega
  · intro heq
    split
    next h => omega
    next h => rfl
  · split <;> rfl

/-- Witness for C1 at a boundary input: image 100 bytes, overlay 1 MiB,
free exactly 100 + 2^20 bytes passes, and totalsize is as claimed. -/
theorem check_free_space_iff_witness :
    (check_free_space 100 1 1048676).2 = none ∧
    (check_free_space 100 1 1048676).1 = 1 * 1024 ^ 2 + 100 :=
  ⟨(check_free_space_iff 100 1 1048676).2.1 (by decide),
   (check_free_space_iff 100 1 1048676).2.2⟩

/-- C7 counterexample: at image size 800,000,000 bytes, overlay 0, free
700,000,000 bytes, the raised error carries 762 and 667 — the whole-megabyte
figures `isosize/1024**2 + overlay` and `freebytes/1024**2` — not the byte
figures 800,000,000 and 700,000,000 the claim states. -/
theorem check_free_space_reports_mb_cex :
    (check_free_space 800000000 0 700000000).2 = some ⟨762, 667⟩ ∧
    (check_free_space 800000000 0 700000000).2 ≠ some ⟨800000000, 700000000⟩ := by
  exact ⟨by decide, by decide⟩

/-- C7 (amended): when `check_free_space` fails, the error carries the figures
in whole megabytes — required `isosize/2^20 + overlay` and free
`freebytes/2^20`; with free bytes 900,000,000 the scenario's inputs
succeed. -/
theorem check_free_space_err_figures (isosize overlay freebytes : Nat)
    (h : isosize + overlay * 1024 ^ 2 > freebytes) :
    (check_free_space isosize overlay freebytes).2 =
      some ⟨isosize / 1024 ^ 2 + overlay, freebytes / 1024 ^ 2⟩ ∧
    (check_free_space 800000000 0 900000000).2 = none := by
  constructor
  · unfold check_free_space
    dsimp only
    split
    next => rfl
    next hc => omega
  · decide

/-- Witness for C7 (amended): a 3 MiB image with a 2 MiB overlay against
4 MiB free fails carrying required 5 MB and free 4 MB. -/
theorem check_free_space_err_figures_witness :
    (check_free_space (3 * 1024 ^ 2) 2 (4 * 1024 ^ 2)).2 = some ⟨5, 4⟩ ∧
    (check_free_space 800000000 0 900000000).2 = none := by
  have h := check_free_space_err_figures (3 * 1024 ^ 2) 2 (4 * 1024 ^ 2) (by norm_num)
  exact ⟨by rw [h.1]; decide, h.2⟩

/-- C2: `popen` appends the command line and the captured stdout/stderr to the
output log unconditionally (the log after the call is the same in every exit
case); the log is persisted via `write_log` exactly when the exit status is
nonzero; and a `LiveUSBError` is raised exactly when the exit status is
nonzero and `passive` is false. -/
theorem popen_log_and_raise (tmpdir : Option String) (output0 : List String)
    (cmd out err : String) (returncode : Int) (passive : Bool) :
    (popen tmpdir output0 cmd out err returncode passive).output =
      output0 ++ [cmd, out ++ "\n" ++ err ++ "\n"] ∧
    ((popen tmpdir output0 cmd out err returncode passive).persisted ≠ none ↔
      returncode ≠ 0) ∧
    ((popen tmpdir output0 cmd out err returncode passive).raised = true ↔
      returncode ≠ 0 ∧ passive = false) := by
  unfold popen
  by_cases h : returncode = 0
  · simp [h]
  · cases passive <;> simp [h]

/-- C9: for every byte sequence, absorption state and per-byte step, the
streaming hash computed by the 1 MiB read/update loop equals the hash of the
whole sequence absorbed in a single pass: chunking is transparent to the
digest. -/
theorem chunked_hash_eq_one_pass (σ : Type) (step : σ → Nat → σ) (s : σ)
    (data : List Nat) :
    stream_hash_loop step s (1024 ^ 2) data = List.foldl step s data :=
  stream_hash_loop_eq_foldl step data s (1024 ^ 2) (by norm_num)

/-- C4 counterexample: with a catalog digest that equals the computed digest
up to letter case but not verbatim (the catalog digest is the upper-cased
SHA-1 of the empty input), `verify_iso_sha1` returns `mismatched`, because the
source compares with `==`, not case-insensitively. -/
theorem verify_iso_sha1_case_cex :
    ("DA39A3EE5E6B4B0D3255BFEF95601890AFD80709").data.map Char.toLower =
      ("da39a3ee5e6b4b0d3255bfef95601890afd80709").data.map Char.toLower ∧
    hexdigestVia sha1EmptyModel [] = "da39a3ee5e6b4b0d3255bfef95601890afd80709" ∧
    verify_iso_sha1 sha1EmptyModel sha1EmptyModel
      (some ⟨some "DA39A3EE5E6B4B0D3255BFEF95601890AFD80709", none⟩) [] =
      VerifyOutcome.mismatched := by
  refine ⟨by decide, ?_, ?_⟩ <;>
    simp [verify_iso_sha1, hexdigestVia, stream_hash_loop_eq_foldl, sha1EmptyModel]

/-- C4 (amended): when a catalog entry is matched, the digest comparison is
exact string equality — `matched` exactly when the computed hex digest equals
the catalog value verbatim; any catalog digest that differs from the computed
digest, even only in letter case, yields `mismatched`. -/
theorem verify_iso_sha1_exact_compare (sha1alg sha256alg : HashAlgModel)
    (rel : Release) (isobytes : List Nat) :
    (verify_iso_sha1 sha1alg sha256alg (some rel) isobytes = VerifyOutcome.matched ↔
      (∃ e, rel.sha1 = some e ∧ hexdigestVia sha1alg isobytes = e) ∨
      (rel.sha1 = none ∧
        ∃ e, rel.sha256 = some e ∧ hexdigestVia sha256alg isobytes = e)) ∧
    (∀ e, rel.sha1 = some e → hexdigestVia sha1alg isobytes ≠ e →
      verify_iso_sha1 sha1alg sha256alg (some rel) isobytes =
        VerifyOutcome.mismatched) := by
  obtain ⟨s1, s256⟩ := rel
  constructor
  · cases s1 with
    | some e => cases hd : decEq (hexdigestVia sha1alg isobytes) e <;>
        simp_all [verify_iso_sha1]
    | none => cases s256 with
      | some e => cases hd : decEq (hexdigestVia sha256alg isobytes) e <;>
          simp_all [verify_iso_sha1]
      | none => simp [verify_iso_sha1]
  · intro e he hne
    subst he
    simp [verify_iso_sha1, hne]

/-- Witness for C4 (amended) on the sha256 branch: a catalog entry carrying
only a sha256 digest equal to the computed digest verbatim is `matched`. -/
theorem verify_iso_sha1_exact_compare_witness :
    verify_iso_sha1 sha1EmptyModel sha1EmptyModel
      (some ⟨none, some "da39a3ee5e6b4b0d3255bfef95601890afd80709"⟩) [] =
      VerifyOutcome.matched :=
  (verify_iso_sha1_exact_compare sha1EmptyModel sha1EmptyModel
      ⟨none, some "da39a3ee5e6b4b0d3255bfef95601890afd80709"⟩ []).1.mpr
    (Or.inr ⟨rfl, "da39a3ee5e6b4b0d3255bfef95601890afd80709", rfl,
      by simp [hexdigestVia, stream_hash_loop_eq_foldl, sha1EmptyModel]⟩)

/-- C6 counterexample: with `parent = None`, `calculate_device_checksum` opens
the path `unicode(None) = "None"`, not the drive's own device path
"/dev/sdb", and its digest is the digest of the bytes at "None", not of the
bytes at "/dev/sdb". -/
theorem calculate_device_checksum_no_fallback_cex :
    (calculate_device_checksum listDigestModel fsReadCex none).1 = "None" ∧
    "None" ≠ "/dev/sdb" ∧
    (calculate_device_checksum listDigestModel fsReadCex none).2 ≠
      hexdigestVia listDigestModel (fsReadCex "/dev/sdb") := by
  refine ⟨rfl, by decide, ?_⟩
  simp [calculate_device_checksum, device_checksum_path, pyUnicodeOfOption,
    hexdigestVia, stream_hash_loop_eq_foldl, fsReadCex, listDigestModel]
  decide

/-- C6 (amended): `calculate_device_checksum` always hashes the path
`unicode(parent)` — the literal string "None" when the parent is absent, never
the drive's own device path — with the hard-coded SHA-1 algorithm, streaming
in 1 MiB chunks, and returns (and logs) the hex digest of the bytes at that
path, equal to the one-pass digest. -/
theorem calculate_device_checksum_spec (sha1alg : HashAlgModel)
    (fsRead : String → List Nat) (parent : Option String) :
    calculate_device_checksum sha1alg fsRead parent =
      (pyUnicodeOfOption parent,
        sha1alg.hexOf (List.foldl sha1alg.upd sha1alg.init
          (fsRead (pyUnicodeOfOption parent)))) := by
  unfold calculate_device_checksum device_checksum_path hexdigestVia
  dsimp only
  rw [stream_hash_loop_eq_foldl _ _ _ _ (by norm_num)]

/-- C3 counterexample: a vfat drive with no recorded mount point, in an
environment where `Mount()` returns "/media/usb" but `os.path.exists` fails on
it: `mount_device` returns normally — the verification failure is only logged
(lines 772-774) and no destination is recorded; no `MountError` reaches the
caller. -/
theorem mount_device_no_mount_error_cex :
    mount_device (some "vfat") none ghostMountEnv =
      Except.ok ⟨none, none, true⟩ := rfl

/-- C3 (amended): for a drive with a supported filesystem type,
`mount_device` reuses an existing recorded mount point as the destination; a
freshly acquired mount point becomes the destination only when
`os.path.exists` verifies it; and when verification fails the failure is
logged and the destination left unset, but the call returns normally — no
`MountError` is raised to the caller. -/
theorem mount_device_policy (fs : String) (hfs : fs ∈ valid_fstypes)
    (env : DBusEnv) :
    (∀ m, mount_device (some fs) (some m) env =
      Except.ok ⟨some m, some m, false⟩) ∧
    (∀ out, mount_device (some fs) none env = Except.ok out →
      ∀ m, out.dest = some m →
        env.pathExists m = true ∧ out.driveMount = some m) ∧
    (∀ m, acquire_mount env = Except.ok (some m) → env.pathExists m = false →
      mount_device (some fs) none env = Except.ok ⟨none, none, true⟩) := by
  refine ⟨?_, ?_, ?_⟩
  · intro m
    simp [mount_device, hfs]
  · intro out hout m hm
    unfold mount_device at hout
    dsimp only at hout
    rw [if_pos hfs] at hout
    split at hout
    next => exact Except.noConfusion hout
    next m' heq =>
      split at hout
      next hex =>
        obtain rfl := Except.ok.inj hout
        simp only [MountOutcome.dest] at hm
        obtain rfl := Option.some.inj hm
        exact ⟨hex, rfl⟩
      next hex =>
        obtain rfl := Except.ok.inj hout
        exact Option.noConfusion hm
    next heq =>
      obtain rfl := Except.ok.inj hout
      exact Option.noConfusion hm
  · intro m hacq hex
    unfold mount_device
    dsimp only
    rw [if_pos hfs, hacq]
    simp [hex]

/-- Witness for C3 (amended): reuse of an existing mount, and the concrete
failed-verification run that ends without an error. -/
theorem mount_device_policy_witness :
    mount_device (some "vfat") (some "/media/old") ghostMountEnv =
      Except.ok ⟨some "/media/old", some "/media/old", false⟩ ∧
    mount_device (some "vfat") none ghostMountEnv =
      Except.ok ⟨none, none, true⟩ :=
  ⟨(mount_device_policy "vfat" (by decide) ghostMountEnv).1 "/media/old",
   (mount_device_policy "vfat" (by decide) ghostMountEnv).2.2 "/media/usb" rfl rfl⟩

/-- C5 counterexample: an optical device whose device path equals the
force-override value is still excluded from the inventory — the
optical/removable check (creator.py lines 624-629) consults no override, so
the device is not surfaced, contrary to the claim. -/
theorem handleAdded_optical_force_cex :
    opticalForcedDev.optical = true ∧
    some opticalForcedDev.device = some "/dev/sr0" ∧
    handleAdded (some "/dev/sr0") opticalForcedDev = none := ⟨rfl, rfl, rfl⟩

/-- C5 (amended): a device whose drive is optical or not removable is excluded
from the inventory regardless of the force-override value; a device mounted at
/boot is excluded in every case; and every device inserted into the inventory
has a filesystem type in the accepted set or a device path equal to the
force-override value. -/
theorem handleAdded_filters (force : Option String) (d : UDisksDevice) :
    (d.removable = false ∨ d.optical = true → handleAdded force d = none) ∧
    ("/boot" ∈ d.mounts → handleAdded force d = none) ∧
    (∀ r, handleAdded force d = some r →
      r.fstype ∈ valid_fstypes ∨ force = some r.device) := by
  refine ⟨?_, ?_, ?_⟩
  · intro h
    have hc : d.removable = false ∨ d.optical = true ∨
        (d.connectionBus ≠ "usb" ∧ d.connectionBus ≠ "sdio") := by tauto
    unfold handleAdded
    by_cases h1 : ¬(d.hasBlock = true ∧ d.hasFilesystem = true ∧ d.hasPartition = true)
    · rw [if_pos h1]
    · rw [if_neg h1]
      by_cases h2 : d.driveIsRoot = true
      · rw [if_pos h2]
      · rw [if_neg h2, if_pos hc]
  · intro hb
    unfold handleAdded
    by_cases h1 : ¬(d.hasBlock = true ∧ d.hasFilesystem = true ∧ d.hasPartition = true)
    · rw [if_pos h1]
    · rw [if_neg h1]
      by_cases h2 : d.driveIsRoot = true
      · rw [if_pos h2]
      · rw [if_neg h2]
        by_cases h3 : d.removable = false ∨ d.optical = true ∨
            (d.connectionBus ≠ "usb" ∧ d.connectionBus ≠ "sdio")
        · rw [if_pos h3]
        · rw [if_neg h3, if_pos hb]
  · intro r hr
    unfold handleAdded at hr
    split at hr
    · exact Option.noConfusion hr
    · split at hr
      · exact Option.noConfusion hr
      · split at hr
        · exact Option.noConfusion hr
        · split at hr
          · exact Option.noConfusion hr
          · split at hr
            · exact Option.noConfusion hr
            · split at hr
              · exact Option.noConfusion hr
              · next h6 =>
                obtain rfl := Option.some.inj hr
                show d.fstype ∈ valid_fstypes ∨ force = some d.device
                tauto

/-- Witness for C5 (amended): the optical device and the /boot-mounted device
are excluded with no override set, and the record inserted for a clean vfat
USB stick has an accepted filesystem type. -/
theorem handleAdded_filters_witness :
    handleAdded none opticalForcedDev = none ∧
    handleAdded none bootMountedDev = none ∧
    ((cleanUsbDev.fstype ∈ valid_fstypes ∨ (none : Option String) = some cleanUsbDev.device)) :=
  ⟨(handleAdded_filters none opticalForcedDev).1 (Or.inr rfl),
   (handleAdded_filters none bootMountedDev).2.1 (by decide),
   (handleAdded_filters none cleanUsbDev).2.2
     ⟨"STICK", "vfat", "abcd-ef01", "/dev/sdd1", none, 16000000000, some "/dev/sdd"⟩ rfl⟩

/-- C8: for a filesystem type in the accepted set, `verify_filesystem` returns
normally — without running any rewrite command — when the drive's label
already equals the desired label; and even when the label differs and the
rewrite command fails, the failure is recovered locally and the call still
returns normally. -/
theorem verify_filesystem_safe (fs : String) (hfs : fs ∈ valid_fstypes)
    (driveLabel label : String) (labelCmdFails : Bool) :
    (driveLabel = label →
      verify_filesystem (some fs) driveLabel label labelCmdFails =
        Except.ok ⟨none, false⟩) ∧
    (∃ out, verify_filesystem (some fs) driveLabel label labelCmdFails =
        Except.ok out) := by
  constructor
  · intro heq
    subst heq
    simp [verify_filesystem, hfs]
  · unfold verify_filesystem
    dsimp only
    rw [if_pos hfs]
    by_cases hl : driveLabel ≠ label
    · rw [if_pos hl]
      by_cases hv : fs = "vfat" ∨ fs = "msdos"
      · rw [if_pos hv]; exact ⟨_, rfl⟩
      · rw [if_neg hv]; exact ⟨_, rfl⟩
    · rw [if_neg hl]; exact ⟨_, rfl⟩

/-- Witness for C8: a matching-label vfat drive returns cleanly even under a
failing rewrite command, and an ext3 drive with a differing label still
returns normally when the rewrite command fails. -/
theorem verify_filesystem_safe_witness :
    verify_filesystem (some "vfat") "LIVE" "LIVE" true = Except.ok ⟨none, false⟩ ∧
    ∃ out, verify_filesystem (some "ext3") "OLD" "LIVE" true = Except.ok out :=
  ⟨(verify_filesystem_safe "vfat" (by decide) "LIVE" "LIVE" true).1 rfl,
   (verify_filesystem_safe "ext3" (by decide) "OLD" "LIVE" true).2⟩

/-- C10: after a successful `_set_drive` with a key (or a device path
resolving to one), the inventory is unchanged and the state's uuid and fstype
equal those of the selected inventory entry; `_set_drive` with None clears the
selection without error; and the `drive` property returns None, never raising,
whenever nothing is selected or the inventory is empty. -/
theorem drive_selection_sync (s s' : CreatorState) (k : String) :
    (set_drive s (some k) = Except.ok s' →
      s'.drives = s.drives ∧
      ∃ key r, s'.sel = some key ∧ dictGet s'.drives key = some r ∧
        s'.uuid = some r.uuid ∧ s'.fstype = some r.fstype) ∧
    set_drive s none = Except.ok { s with sel := none } ∧
    (s.sel = none ∨ s.drives = [] → drive_get s = Except.ok none) := by
  refine ⟨?_, rfl, ?_⟩
  · intro h
    unfold set_drive at h
    dsimp only at h
    split at h
    next => exact Except.noConfusion h
    next k' hk' =>
      split at h
      next r hget =>
        obtain rfl := Except.ok.inj h
        exact ⟨rfl, k', r, rfl, hget, rfl, rfl⟩
      next => exact Except.noConfusion h
  · intro h
    unfold drive_get
    cases hsel : s.sel with
    | none => rfl
    | some k' =>
      rcases h with hsel' | hdr
      · rw [hsel'] at hsel
        exact Option.noConfusion hsel
      · rw [hdr]
        rfl

/-- Witness for C10: selecting `driveEx` by its device path resolves to its
inventory key and copies uuid and fstype; clearing and the empty selection
both return None without error. -/
theorem drive_selection_sync_witness :
    (stateSelEx.drives = stateEx.drives ∧
      ∃ key r, stateSelEx.sel = some key ∧
        dictGet stateSelEx.drives key = some r ∧
        stateSelEx.uuid = some r.uuid ∧ stateSelEx.fstype = some r.fstype) ∧
    set_drive stateEx none = Except.ok { stateEx with sel := none } ∧
    drive_get stateEx = Except.ok none :=
  ⟨(drive_selection_sync stateEx stateSelEx "/dev/sdb1").1 rfl,
   (drive_selection_sync stateEx stateSelEx "/dev/sdb1").2.1,
   (drive_selection_sync stateEx stateSelEx "/dev/sdb1").2.2 (Or.inl rfl)⟩

end LiveUSB
